import Mathlib

/-!
Verification of the Potjans 2014 microcircuit example
(`pynest/examples/Potjans_2014/network.py` and `network_params.py`).

Matrices (numpy 2-d arrays) are embedded as `List (List ℚ)` (floats as
rationals), vectors as `List ℚ`.  Quantities produced by the `helpers`
module (full synapse counts, PSC conversions, the external weight) are
taken as abstract inputs of the functions that consume them, since only
their consumers are part of the verified source.
-/

namespace Potjans

/-- Entry access `m[i][j]` for a rational matrix, with default 0. -/
def entryQ (m : List (List ℚ)) (i j : ℕ) : ℚ :=
  (m.getD i []).getD j 0

/-- Entry access `m[i][j]` for an integer matrix, with default 0. -/
def entryZ (m : List (List ℤ)) (i j : ℕ) : ℤ :=
  (m.getD i []).getD j 0

/-- numpy `.astype(int)` on a float value: truncation toward zero. -/
def astypeInt (q : ℚ) : ℤ :=
  if 0 ≤ q then ⌊q⌋ else ⌈q⌉

/-- network.py line 178: `self.num_neurons = (N_full * N_scaling).astype(int)`. -/
def num_neurons (N_full : List ℚ) (N_scaling : ℚ) : List ℤ :=
  N_full.map (fun n => astypeInt (n * N_scaling))

/-- network.py lines 180-182:
`self.num_synapses = (full_num_synapses * N_scaling * K_scaling).astype(int)`. -/
def num_synapses (full_num_synapses : List (List ℚ)) (N_scaling K_scaling : ℚ) :
    List (List ℤ) :=
  full_num_synapses.map (fun row =>
    row.map (fun s => astypeInt (s * N_scaling * K_scaling)))

/-- network.py lines 183-184:
`self.ext_indegrees = (K_ext * K_scaling).astype(int)`. -/
def ext_indegrees (K_ext : List ℚ) (K_scaling : ℚ) : List ℤ :=
  K_ext.map (fun k => astypeInt (k * K_scaling))

/-- numpy `m[i, j] = v` on a matrix given as nested lists. -/
def setEntry (m : List (List ℚ)) (i j : ℕ) (v : ℚ) : List (List ℚ) :=
  m.set i ((m.getD i []).set j v)

/-- network_params.py lines 107-114 (`get_mean_PSP_matrix`):
`weights = zeros((dim, dim))`, `weights[:, 0:dim:2] = exc`,
`weights[:, 1:dim:2] = inh` with `exc = PSP_e`, `inh = PSP_e * g`,
then `weights[0, 2] = exc * 2`. -/
def get_mean_PSP_matrix (PSP_e g : ℚ) (number_of_pop : ℕ) : List (List ℚ) :=
  let dim := number_of_pop
  let exc := PSP_e
  let inh := PSP_e * g
  let weights := (List.range dim).map (fun _i =>
    (List.range dim).map (fun j => if j % 2 = 0 then exc else inh))
  setEntry weights 0 2 (exc * 2)

/-- network.py line 271: `grng_seed = master_seed + N_vp`. -/
def grng_seed (master_seed N_vp : ℕ) : ℕ :=
  master_seed + N_vp

/-- network.py line 272:
`rng_seeds = (master_seed + N_vp + 1 + np.arange(N_vp)).tolist()`. -/
def rng_seeds (master_seed N_vp : ℕ) : List ℕ :=
  (List.range N_vp).map (fun k => master_seed + N_vp + 1 + k)

/-- Parameters of a NEST `normal_clipped` distribution: `mu`, `sigma` and
optional `low` / `high` bounds (absent keys are `Option.none`). -/
structure ClipDist where
  mu : ℚ
  sigma : ℚ
  low : Option ℚ
  high : Option ℚ
deriving DecidableEq

/-- One recurrent `nest.Connect` call: source and target population
indices, the `fixed_total_number` count `N`, and the weight and delay
distributions of the synapse specification. -/
structure RecConnRequest where
  source : ℕ
  target : ℕ
  rule_N : ℤ
  weight : ClipDist
  delay : ClipDist
deriving DecidableEq

/-- Body of the double loop of `__connect_neuronal_populations`
(network.py lines 436-463) for target `i` and source `j`:
`synapse_nr = num_synapses[i][j]`; if `synapse_nr >= 0` a connection is
issued with rule `fixed_total_number, N = synapse_nr`, weight
`normal_clipped(mu = weight, sigma = abs(weight * std))` clipped with
`high = 0` when `weight < 0` and otherwise `low = 0`, and delay
`normal_clipped` with `low = sim_resolution`. -/
def rec_conn_request (num_synapses_m : List (List ℤ))
    (mean_weight_matrix PSP_std_matrix mean_delays std_delays : List (List ℚ))
    (sim_resolution : ℚ) (i j : ℕ) : Option RecConnRequest :=
  let synapse_nr := entryZ num_synapses_m i j
  if 0 ≤ synapse_nr then
    let weight := entryQ mean_weight_matrix i j
    let w_sd := |weight * entryQ PSP_std_matrix i j|
    Option.some ⟨j, i, synapse_nr,
      if weight < 0 then ⟨weight, w_sd, Option.none, Option.some 0⟩
      else ⟨weight, w_sd, Option.some 0, Option.none⟩,
      ⟨entryQ mean_delays i j, entryQ std_delays i j,
        Option.some sim_resolution, Option.none⟩⟩
  else Option.none

/-- network.py lines 427-463 (`__connect_neuronal_populations`): the double
loop over target populations `i` and source populations `j` collecting all
issued connection requests. -/
def connect_neuronal_populations (num_pops : ℕ) (num_synapses_m : List (List ℤ))
    (mean_weight_matrix PSP_std_matrix mean_delays std_delays : List (List ℚ))
    (sim_resolution : ℚ) : List RecConnRequest :=
  ((List.range num_pops).map (fun i =>
    (List.range num_pops).filterMap (fun j =>
      rec_conn_request num_synapses_m mean_weight_matrix PSP_std_matrix
        mean_delays std_delays sim_resolution i j))).flatten

/-- Concrete request used to witness `rec_request_clipping`: the single
request of a one-population network with mean weight -2. -/
def rec_witness_request : RecConnRequest :=
  ⟨0, 0, 4, ⟨-2, |(-2 : ℚ) * (1/10)|, Option.none, Option.some 0⟩,
    ⟨3/2, 3/4, Option.some (1/10), Option.none⟩⟩

/-- network.py lines 229-243, thalamic branch of `__derive_parameters`.
The unscaled synapse counts `nr_synapses_th` and the unit-converted weight
`thalamic_weight` come from the helpers module and are abstract inputs
here; `sqrt_K_scaling` stands for the value of `np.sqrt(K_scaling)`.
When `K_scaling != 1` the counts are multiplied by `K_scaling` and the
weight is divided by `sqrt(K_scaling)`; afterwards the counts are
unconditionally cast with `.astype(int)`. -/
def derive_thalamic (nr_synapses_th : List ℚ) (thalamic_weight : ℚ)
    (K_scaling sqrt_K_scaling : ℚ) : List ℤ × ℚ :=
  let nr := if K_scaling ≠ 1 then nr_synapses_th.map (fun c => c * K_scaling)
            else nr_synapses_th
  let w := if K_scaling ≠ 1 then thalamic_weight / sqrt_K_scaling
           else thalamic_weight
  (nr.map astypeInt, w)

/-- A NEST structural connection rule. -/
inductive ConnRule
  | all_to_all : ConnRule
  | fixed_total_number : ℤ → ConnRule
deriving DecidableEq

/-- One `nest.Connect` call from a background Poisson generator to a
population: the syn spec carries a plain point-value weight and delay
(no distribution). -/
structure PoissonBgConnRequest where
  generator : ℕ
  target : ℕ
  rule : ConnRule
  weight : ℚ
  delay : ℚ
deriving DecidableEq

/-- network.py lines 380-383 (`__create_poisson_bg_input`): one Poisson
generator per population, generator `i` having rate
`bg_rate * ext_indegrees[i]`. -/
def poisson_bg_rates (bg_rate : ℚ) (K_ext : List ℚ) (K_scaling : ℚ) : List ℚ :=
  (ext_indegrees K_ext K_scaling).map (fun k : ℤ => bg_rate * (k : ℚ))

/-- network.py lines 484-495 (`__connect_poisson_bg_input`): generator `i`
is connected to population `i` with rule `all_to_all`, weight
`weight_ext` and delay `poisson_delay`. -/
def connect_poisson_bg_input (num_pops : ℕ) (weight_ext poisson_delay : ℚ) :
    List PoissonBgConnRequest :=
  (List.range num_pops).map (fun i =>
    ⟨i, i, ConnRule.all_to_all, weight_ext, poisson_delay⟩)

/-- The fields of `net_dict` and `stim_dict` read by
`__create_dc_stim_input`, together with the two scaling factors. -/
structure NetStimParams where
  K_ext : List ℚ
  K_scaling : ℚ
  N_scaling : ℚ
  dc_amp : ℚ

/-- network.py line 414 (`__create_dc_stim_input`):
`dc_amp_stim = self.net_dict[K_ext] * self.stim_dict[dc_amp]`, computed
from the full-scale external indegrees with no reference to the scaling
factors. -/
def dc_amp_stim (p : NetStimParams) : List ℚ :=
  p.K_ext.map (fun k => k * p.dc_amp)

/-- The keys of `stimulus_params.py` read by `create` and `connect`. -/
structure StimDict where
  thalamic_input : Bool
  dc_input : Bool
deriving DecidableEq

/-- Python runtime error: subscripting `None` raises
`TypeError: NoneType object is not subscriptable`. -/
inductive PyErr
  | noneNotSubscriptable : PyErr
deriving DecidableEq

/-- Evaluation of `self.stim_dict[key]` when `self.stim_dict` may be
`None`. -/
def stim_subscript (stim_dict : Option StimDict) (key : StimDict → Bool) :
    Except PyErr Bool :=
  match stim_dict with
  | Option.none => Except.error PyErr.noneNotSubscriptable
  | Option.some s => Except.ok (key s)

/-- The instance state relevant to the stimulus flow. -/
structure NetworkState where
  stim_dict : Option StimDict

/-- network.py lines 54-63 plus 230 (`__init__`): the constructor stores
`stim_dict` (`None` when the argument is omitted) and immediately runs
`__derive_parameters`, whose line 230 evaluates
`self.stim_dict[thalamic_input]`; only if that succeeds does construction
complete. -/
def network_init (stim_dict : Option StimDict) : Except PyErr NetworkState :=
  match stim_subscript stim_dict StimDict.thalamic_input with
  | Except.error e => Except.error e
  | Except.ok _ => Except.ok (NetworkState.mk stim_dict)

/-- network.py lines 82-96 (`create`): after the unconditional creation
steps, lines 93 and 95 evaluate `self.stim_dict[thalamic_input]` and
`self.stim_dict[dc_input]`. -/
def network_create (st : NetworkState) : Except PyErr Unit :=
  match stim_subscript st.stim_dict StimDict.thalamic_input with
  | Except.error e => Except.error e
  | Except.ok _ =>
    match stim_subscript st.stim_dict StimDict.dc_input with
    | Except.error e => Except.error e
    | Except.ok _ => Except.ok Unit.unit

/-- network.py lines 99-115 (`connect`): lines 112 and 114 evaluate
`self.stim_dict[thalamic_input]` and `self.stim_dict[dc_input]`. -/
def network_connect (st : NetworkState) : Except PyErr Unit :=
  match stim_subscript st.stim_dict StimDict.thalamic_input with
  | Except.error e => Except.error e
  | Except.ok _ =>
    match stim_subscript st.stim_dict StimDict.dc_input with
    | Except.error e => Except.error e
    | Except.ok _ => Except.ok Unit.unit

theorem astypeInt_of_nonneg {q : ℚ} (h : 0 ≤ q) : astypeInt q = ⌊q⌋ := by
  simp [astypeInt, h]

theorem getD_map_of_lt {α β : Type} (f : α → β) (l : List α) (i : ℕ)
    (h : i < l.length) (d : β) (d' : α) :
    (l.map f).getD i d = f (l.getD i d') := by
  rw [List.getD_eq_getElem?_getD, List.getD_eq_getElem?_getD, List.getElem?_map,
    List.getElem?_eq_getElem h]
  simp

theorem entryZ_num_synapses (full : List (List ℚ)) (nS kS : ℚ) (i j : ℕ)
    (hi : i < full.length) (hj : j < (full.getD i []).length) :
    entryZ (num_synapses full nS kS) i j = astypeInt (entryQ full i j * nS * kS) := by
  unfold entryZ entryQ num_synapses
  rw [getD_map_of_lt _ _ _ hi _ []]
  rw [getD_map_of_lt _ _ _ hj _ 0]

/-- C1: for nonnegative full counts and nonnegative scaling factors, the
scaled synapse count is the floor of `full * N_scaling * K_scaling`, and
is 0 whenever the full count is 0. -/
theorem scaled_synapses_floor (full : List (List ℚ)) (nS kS : ℚ) (i j : ℕ)
    (hi : i < full.length) (hj : j < (full.getD i []).length)
    (hfull : 0 ≤ entryQ full i j) (hn : 0 ≤ nS) (hk : 0 ≤ kS) :
    entryZ (num_synapses full nS kS) i j = ⌊entryQ full i j * nS * kS⌋ ∧
    (entryQ full i j = 0 → entryZ (num_synapses full nS kS) i j = 0) := by
  have hprod : 0 ≤ entryQ full i j * nS * kS :=
    mul_nonneg (mul_nonneg hfull hn) hk
  constructor
  · rw [entryZ_num_synapses full nS kS i j hi hj, astypeInt_of_nonneg hprod]
  · intro h0
    rw [entryZ_num_synapses full nS kS i j hi hj, h0]
    simp [astypeInt]

/-- Witness for `scaled_synapses_floor` at `full = [[100]]`, `nS = 1/10`,
`kS = 1/10`. -/
theorem scaled_synapses_floor_witness :
    entryZ (num_synapses [[100]] (1/10) (1/10)) 0 0 = ⌊(100 : ℚ) * (1/10) * (1/10)⌋ ∧
    ((100 : ℚ) = 0 → entryZ (num_synapses [[100]] (1/10) (1/10)) 0 0 = 0) := by
  have h := scaled_synapses_floor [[100]] (1/10) (1/10) 0 0
    (by decide) (by decide) (by norm_num [entryQ]) (by norm_num) (by norm_num)
  constructor
  · have := h.1
    simpa [entryQ] using this
  · intro h100
    norm_num at h100

/-- C5: every even source column of `get_mean_PSP_matrix` is `PSP_e`,
every odd source column is `PSP_e * g`, except that cell (0,2) alone is
`2 * PSP_e`. -/
theorem mean_PSP_matrix_spec (PSP_e g : ℚ) (P i j : ℕ)
    (hi : i < P) (hj : j < P) :
    entryQ (get_mean_PSP_matrix PSP_e g P) i j =
      if i = 0 ∧ j = 2 then 2 * PSP_e
      else if j % 2 = 0 then PSP_e else PSP_e * g := by
  have hP : 0 < P := Nat.lt_of_le_of_lt (Nat.zero_le i) hi
  by_cases hi0 : i = 0 <;> by_cases hj2 : j = 2
  · subst hi0; subst hj2
    simp [get_mean_PSP_matrix, setEntry, entryQ, List.getD_eq_getElem?_getD,
      List.getElem?_set, List.getElem?_map, List.getElem?_range, hP, hj, mul_comm]
  · subst hi0
    simp [get_mean_PSP_matrix, setEntry, entryQ, List.getD_eq_getElem?_getD,
      List.getElem?_set, List.getElem?_map, List.getElem?_range, hP, hj,
      Ne.symm hj2, hj2]
  · subst hj2
    simp [get_mean_PSP_matrix, setEntry, entryQ, List.getD_eq_getElem?_getD,
      List.getElem?_set, List.getElem?_map, List.getElem?_range, hP, hi, hj,
      Ne.symm hi0, hi0]
  · simp [get_mean_PSP_matrix, setEntry, entryQ, List.getD_eq_getElem?_getD,
      List.getElem?_set, List.getElem?_map, List.getElem?_range, hP, hi, hj,
      Ne.symm hi0, hi0, hj2]

/-- Witness for `mean_PSP_matrix_spec` at the repository values
`PSP_e = 3/20`, `g = -4`, `P = 8`, checking cells (0,2), (1,2) and (1,3). -/
theorem mean_PSP_matrix_spec_witness :
    entryQ (get_mean_PSP_matrix (3/20) (-4) 8) 0 2 = 2 * (3/20) ∧
    entryQ (get_mean_PSP_matrix (3/20) (-4) 8) 1 2 = 3/20 ∧
    entryQ (get_mean_PSP_matrix (3/20) (-4) 8) 1 3 = (3/20) * (-4) := by
  refine ⟨?_, ?_, ?_⟩
  · have h := mean_PSP_matrix_spec (3/20) (-4) 8 0 2 (by decide) (by decide)
    simpa using h
  · have h := mean_PSP_matrix_spec (3/20) (-4) 8 1 2 (by decide) (by decide)
    simpa using h
  · have h := mean_PSP_matrix_spec (3/20) (-4) 8 1 3 (by decide) (by decide)
    simpa using h

/-- C6: for master seed `m` and `v` virtual processes, the global RNG seed
is `m + v` and the per-process seeds are exactly the set
`{m+v+1, ..., m+2v}`; both are deterministic functions of `(m, v)`. -/
theorem seed_expansion_spec (m v : ℕ) :
    grng_seed m v = m + v ∧
    ∀ s : ℕ, s ∈ rng_seeds m v ↔ (m + v + 1 ≤ s ∧ s ≤ m + 2 * v) := by
  refine ⟨rfl, fun s => ?_⟩
  simp only [rng_seeds, List.mem_map, List.mem_range]
  constructor
  · rintro ⟨k, hk, rfl⟩
    omega
  · intro hs
    exact ⟨s - (m + v + 1), by omega, by omega⟩

/-- C2 counterexample: with the non-positive scaling factor
`K_scaling = -1` and full count 100, derivation raises no configuration
error (the embedded function is total, as the source performs no
validation) and silently returns the nonsensical synapse count -100. -/
theorem no_validation_counterexample :
    num_synapses [[100]] 1 (-1) = [[-100]] := by
  norm_num [num_synapses, astypeInt]
  have h : ((-100 : ℤ) : ℚ) = -100 := by norm_num
  rw [← h, Int.ceil_intCast]

/-- C2 amended: derivation performs no validation; a configuration with a
scaling factor `kS ≤ -1` and a full synapse count with `full * nS ≥ 1`
silently yields a strictly negative scaled synapse count instead of
failing with a configuration error. -/
theorem no_validation_negative_count (full : List (List ℚ)) (nS kS : ℚ) (i j : ℕ)
    (hi : i < full.length) (hj : j < (full.getD i []).length)
    (hpos : 1 ≤ entryQ full i j * nS) (hk : kS ≤ -1) :
    entryZ (num_synapses full nS kS) i j < 0 := by
  rw [entryZ_num_synapses full nS kS i j hi hj]
  have hprod : entryQ full i j * nS * kS ≤ -1 := by
    nlinarith
  have hneg : ¬ (0 ≤ entryQ full i j * nS * kS) := by linarith
  unfold astypeInt
  rw [if_neg hneg]
  have : (⌈entryQ full i j * nS * kS⌉ : ℤ) ≤ -1 := by
    rw [Int.ceil_le]
    push_cast
    linarith
  omega

/-- Witness for `no_validation_negative_count` at `full = [[100]]`,
`nS = 1`, `kS = -1`. -/
theorem no_validation_negative_count_witness :
    entryZ (num_synapses [[100]] 1 (-1)) 0 0 < 0 :=
  no_validation_negative_count [[100]] 1 (-1) 0 0
    (by decide) (by decide) (by norm_num [entryQ]) (by norm_num)

theorem rec_request_mem_cases (P : ℕ) (ns : List (List ℤ))
    (mw sw md sd : List (List ℚ)) (res : ℚ) (r : RecConnRequest)
    (hr : r ∈ connect_neuronal_populations P ns mw sw md sd res) :
    ∃ i j, i < P ∧ j < P ∧ 0 ≤ entryZ ns i j ∧
      rec_conn_request ns mw sw md sd res i j = Option.some r := by
  simp only [connect_neuronal_populations, List.mem_flatten, List.mem_map,
    List.mem_range] at hr
  obtain ⟨l, ⟨i, hi, rfl⟩, hrl⟩ := hr
  rw [List.mem_filterMap] at hrl
  obtain ⟨j, hj, hopt⟩ := hrl
  rw [List.mem_range] at hj
  refine ⟨i, j, hi, hj, ?_, hopt⟩
  by_contra hcont
  simp only [rec_conn_request] at hopt
  rw [if_neg hcont] at hopt
  exact Option.noConfusion hopt

/-- C3 counterexample: a single population whose scaled synapse count is 0
still produces one connection request, with `N = 0` (the source guards
with `synapse_nr >= 0`, not `> 0`). -/
theorem zero_count_request_counterexample :
    (connect_neuronal_populations 1 [[0]] [[1]] [[1/10]] [[3/2]] [[3/4]] (1/10)).length
        = 1 ∧
    (connect_neuronal_populations 1 [[0]] [[1]] [[1/10]] [[3/2]] [[3/4]] (1/10)).map
        RecConnRequest.rule_N = [0] := by
  constructor <;> decide

/-- C3 amended: a recurrent connection request with
`N = scaledSynapses[target][source]` is issued exactly for the ordered
pairs whose scaled synapse count is greater than or equal to 0 (so
zero-count pairs also produce a request, with `N = 0`). -/
theorem rec_request_exactly_nonneg (P : ℕ) (ns : List (List ℤ))
    (mw sw md sd : List (List ℚ)) (res : ℚ) (i j : ℕ) :
    (∃ r ∈ connect_neuronal_populations P ns mw sw md sd res,
        r.target = i ∧ r.source = j ∧ r.rule_N = entryZ ns i j) ↔
      (i < P ∧ j < P ∧ 0 ≤ entryZ ns i j) := by
  constructor
  · rintro ⟨r, hr, hti, hsj, _⟩
    obtain ⟨i', j', hi', hj', hc, hsome⟩ :=
      rec_request_mem_cases P ns mw sw md sd res r hr
    simp only [rec_conn_request, if_pos hc] at hsome
    obtain rfl := Option.some.inj hsome
    dsimp only at hti hsj
    subst hti; subst hsj
    exact ⟨hi', hj', hc⟩
  · rintro ⟨hi, hj, hc⟩
    refine ⟨⟨j, i, entryZ ns i j,
      if entryQ mw i j < 0 then
        ⟨entryQ mw i j, |entryQ mw i j * entryQ sw i j|, Option.none, Option.some 0⟩
      else
        ⟨entryQ mw i j, |entryQ mw i j * entryQ sw i j|, Option.some 0, Option.none⟩,
      ⟨entryQ md i j, entryQ sd i j, Option.some res, Option.none⟩⟩, ?_, rfl, rfl, rfl⟩
    simp only [connect_neuronal_populations, List.mem_flatten, List.mem_map,
      List.mem_range]
    refine ⟨_, ⟨i, hi, rfl⟩, ?_⟩
    rw [List.mem_filterMap]
    refine ⟨j, List.mem_range.mpr hj, ?_⟩
    simp only [rec_conn_request, if_pos hc]

/-- C4: every issued recurrent connection request clips the weight
distribution with `high = 0` (and no low bound) when its mean is negative
and with `low = 0` (and no high bound) when its mean is positive, and
clips the delay distribution below at the simulation resolution. -/
theorem rec_request_clipping (P : ℕ) (ns : List (List ℤ))
    (mw sw md sd : List (List ℚ)) (res : ℚ) (r : RecConnRequest)
    (hr : r ∈ connect_neuronal_populations P ns mw sw md sd res) :
    (r.weight.mu < 0 → r.weight.high = Option.some 0 ∧ r.weight.low = Option.none) ∧
    (0 < r.weight.mu → r.weight.low = Option.some 0 ∧ r.weight.high = Option.none) ∧
    r.delay.low = Option.some res := by
  obtain ⟨i, j, hi, hj, hc, hsome⟩ :=
    rec_request_mem_cases P ns mw sw md sd res r hr
  simp only [rec_conn_request, if_pos hc] at hsome
  obtain rfl := Option.some.inj hsome
  by_cases hw : entryQ mw i j < 0
  · simp [hw, asymm hw]
  · simp [hw]

theorem rec_witness_request_mem :
    rec_witness_request ∈
      connect_neuronal_populations 1 [[4]] [[-2]] [[1/10]] [[3/2]] [[3/4]] (1/10) := by
  have h : connect_neuronal_populations 1 [[4]] [[-2]] [[1/10]] [[3/2]] [[3/4]] (1/10)
      = [rec_witness_request] := by
    have hr1 : List.range 1 = [0] := by decide
    norm_num [connect_neuronal_populations, rec_conn_request, entryZ, entryQ,
      rec_witness_request, hr1, List.filterMap_cons, abs_of_nonneg]
  rw [h]
  exact List.mem_singleton.mpr rfl

/-- Witness for `rec_request_clipping`: a single inhibitory population with
mean weight -2 and a single request; the weight distribution has
`high = 0` and the delay distribution has `low = 1/10`. -/
theorem rec_request_clipping_witness :
    (rec_witness_request.weight.mu < 0 →
      rec_witness_request.weight.high = Option.some 0 ∧
      rec_witness_request.weight.low = Option.none) ∧
    (0 < rec_witness_request.weight.mu →
      rec_witness_request.weight.low = Option.some 0 ∧
      rec_witness_request.weight.high = Option.none) ∧
    rec_witness_request.delay.low = Option.some (1/10) :=
  rec_request_clipping 1 [[4]] [[-2]] [[1/10]] [[3/2]] [[3/4]] (1/10)
    rec_witness_request rec_witness_request_mem

/-- C7 counterexample: with `K_scaling = 1` and unscaled thalamic synapse
count 7/2, the stored count is 3, not the unchanged 7/2: the `.astype(int)`
truncation is applied even when `K_scaling == 1` (the weight is indeed
unchanged). -/
theorem thalamic_truncation_counterexample :
    (derive_thalamic [7/2] 5 1 1).1 = [3] ∧ ((3 : ℚ) ≠ 7/2) ∧
    (derive_thalamic [7/2] 5 1 1).2 = 5 := by
  refine ⟨?_, by norm_num, rfl⟩
  norm_num [derive_thalamic, astypeInt]

/-- C7 amended: if `K_scaling != 1` the thalamic synapse counts are
multiplied by `K_scaling` and truncated to integers and the weight is
divided by `sqrt(K_scaling)`; if `K_scaling == 1` the weight is left
unchanged while the counts are still truncated to integers (without
scaling). -/
theorem thalamic_scaling_amended (nr : List ℚ) (w kS sq : ℚ) (i : ℕ)
    (hi : i < nr.length) (_hsq : sq * sq = kS) (_hsqpos : 0 ≤ sq) :
    (kS ≠ 1 →
      (derive_thalamic nr w kS sq).1.getD i 0 = astypeInt (nr.getD i 0 * kS) ∧
      (derive_thalamic nr w kS sq).2 = w / sq) ∧
    (kS = 1 →
      (derive_thalamic nr w kS sq).1.getD i 0 = astypeInt (nr.getD i 0) ∧
      (derive_thalamic nr w kS sq).2 = w) := by
  by_cases hk : kS = 1
  · refine ⟨fun hcon => absurd hk hcon, fun _ => ⟨?_, ?_⟩⟩
    · simp only [derive_thalamic, if_neg (not_not_intro hk)]
      exact getD_map_of_lt astypeInt nr i hi 0 0
    · simp [derive_thalamic, hk]
  · refine ⟨fun _ => ⟨?_, ?_⟩, fun heq => absurd heq hk⟩
    · simp only [derive_thalamic, if_pos hk]
      rw [getD_map_of_lt astypeInt _ i (by simpa using hi) 0 0]
      rw [getD_map_of_lt (fun c => c * kS) nr i hi 0 0]
    · simp [derive_thalamic, hk]

/-- Witness for `thalamic_scaling_amended` at counts `[7/2]`, weight 5,
`K_scaling = 1/4`, `sqrt(K_scaling) = 1/2`. -/
theorem thalamic_scaling_amended_witness :
    ((1/4 : ℚ) ≠ 1 →
      (derive_thalamic [7/2] 5 (1/4) (1/2)).1.getD 0 0
          = astypeInt (([7/2] : List ℚ).getD 0 0 * (1/4)) ∧
      (derive_thalamic [7/2] 5 (1/4) (1/2)).2 = 5 / (1/2)) ∧
    ((1/4 : ℚ) = 1 →
      (derive_thalamic [7/2] 5 (1/4) (1/2)).1.getD 0 0
          = astypeInt (([7/2] : List ℚ).getD 0 0) ∧
      (derive_thalamic [7/2] 5 (1/4) (1/2)).2 = 5) :=
  thalamic_scaling_amended [7/2] 5 (1/4) (1/2) 0
    (by decide) (by norm_num) (by norm_num)

/-- C8: population `i` gets exactly one Poisson generator, whose rate is
`bg_rate * floor(K_ext[i] * K_scaling)`, connected all-to-all with the
fixed external weight and the fixed `poisson_delay`. -/
theorem poisson_bg_spec (K_ext : List ℚ) (kS bg_rate weight_ext poisson_delay : ℚ)
    (i : ℕ) (hi : i < K_ext.length) (hk : 0 ≤ K_ext.getD i 0 * kS) :
    (poisson_bg_rates bg_rate K_ext kS).getD i 0
        = bg_rate * ((⌊K_ext.getD i 0 * kS⌋ : ℤ) : ℚ) ∧
    ((connect_poisson_bg_input K_ext.length weight_ext poisson_delay).countP
        (fun r => r.target == i)) = 1 ∧
    (∀ r ∈ connect_poisson_bg_input K_ext.length weight_ext poisson_delay,
      r.target = i →
        r.generator = i ∧ r.rule = ConnRule.all_to_all ∧
        r.weight = weight_ext ∧ r.delay = poisson_delay) := by
  refine ⟨?_, ?_, ?_⟩
  · unfold poisson_bg_rates
    rw [getD_map_of_lt (fun k : ℤ => bg_rate * (k : ℚ)) (ext_indegrees K_ext kS) i
      (by simpa [ext_indegrees] using hi) 0 0]
    unfold ext_indegrees
    rw [getD_map_of_lt (fun k : ℚ => astypeInt (k * kS)) K_ext i hi 0 0]
    rw [astypeInt_of_nonneg hk]
  · unfold connect_poisson_bg_input
    rw [List.countP_map]
    have hpred : ((fun r : PoissonBgConnRequest => r.target == i) ∘
        (fun n : ℕ => (⟨n, n, ConnRule.all_to_all, weight_ext, poisson_delay⟩ :
          PoissonBgConnRequest))) = (fun n : ℕ => n == i) := rfl
    rw [hpred, ← List.count_eq_countP]
    exact List.count_eq_one_of_mem (List.nodup_range _) (List.mem_range.mpr hi)
  · intro r hr hti
    simp only [connect_poisson_bg_input, List.mem_map, List.mem_range] at hr
    obtain ⟨n, hn, rfl⟩ := hr
    dsimp only at hti
    subst hti
    exact ⟨rfl, rfl, rfl, rfl⟩

/-- Witness for `poisson_bg_spec` at the repository values
`K_ext = [1600]` restricted to one population, `K_scaling = 1/10`,
`bg_rate = 8`. -/
theorem poisson_bg_spec_witness :
    (poisson_bg_rates 8 [1600] (1/10)).getD 0 0
        = 8 * ((⌊([1600] : List ℚ).getD 0 0 * (1/10)⌋ : ℤ) : ℚ) ∧
    ((connect_poisson_bg_input ([1600] : List ℚ).length (351/100) (3/2)).countP
        (fun r => r.target == 0)) = 1 ∧
    (∀ r ∈ connect_poisson_bg_input ([1600] : List ℚ).length (351/100) (3/2),
      r.target = 0 →
        r.generator = 0 ∧ r.rule = ConnRule.all_to_all ∧
        r.weight = 351/100 ∧ r.delay = 3/2) :=
  poisson_bg_spec [1600] (1/10) 8 (351/100) (3/2) 0
    (by decide) (by norm_num)

/-- C9: the transient DC stimulus amplitude of population `i` is
`K_ext[i] * dc_amp` and is invariant under any change of the two scaling
factors, which it never reads. -/
theorem dc_stim_full_scale (p : NetStimParams) (ks ns : ℚ) (i : ℕ)
    (hi : i < p.K_ext.length) :
    (dc_amp_stim p).getD i 0 = p.K_ext.getD i 0 * p.dc_amp ∧
    dc_amp_stim (NetStimParams.mk p.K_ext ks ns p.dc_amp) = dc_amp_stim p := by
  constructor
  · exact getD_map_of_lt _ _ i hi 0 0
  · rfl

/-- Witness for `dc_stim_full_scale` at `K_ext = [1600]`, `dc_amp = 3/10`,
probing scaling factors 1/10. -/
theorem dc_stim_full_scale_witness :
    (dc_amp_stim (NetStimParams.mk [1600] 1 1 (3/10))).getD 0 0
        = ([1600] : List ℚ).getD 0 0 * (3/10) ∧
    dc_amp_stim (NetStimParams.mk [1600] (1/10) (1/10) (3/10))
        = dc_amp_stim (NetStimParams.mk [1600] 1 1 (3/10)) :=
  dc_stim_full_scale (NetStimParams.mk [1600] 1 1 (3/10)) (1/10) (1/10) 0 (by decide)

/-- C10 counterexample: with `stim_dict` omitted the constructor itself
already raises the `TypeError` inside `__derive_parameters` (line 230), so
no Network instance exists on which `create()` could be the first place
the error occurs. -/
theorem stim_none_init_error_counterexample :
    network_init Option.none = Except.error PyErr.noneNotSubscriptable ∧
    ∀ st : NetworkState, network_init Option.none ≠ Except.ok st := by
  refine ⟨rfl, fun st h => ?_⟩
  exact Except.noConfusion h

/-- C10 amended: constructing a Network with `stim_dict = None` raises the
`TypeError` already in `__derive_parameters`, so `create`/`connect` are
never reached; and a state holding `stim_dict = None` would indeed make
both `create` and `connect` raise the same error when evaluating
`stim_dict[thalamic_input]` - the nominally optional stimulus dictionary
is effectively required. -/
theorem stim_dict_required (st : NetworkState) (h : st.stim_dict = Option.none) :
    network_init Option.none = Except.error PyErr.noneNotSubscriptable ∧
    network_create st = Except.error PyErr.noneNotSubscriptable ∧
    network_connect st = Except.error PyErr.noneNotSubscriptable := by
  refine ⟨rfl, ?_, ?_⟩ <;>
    simp [network_create, network_connect, stim_subscript, h]

/-- Witness for `stim_dict_required` at the state storing `None`. -/
theorem stim_dict_required_witness :
    network_init Option.none = Except.error PyErr.noneNotSubscriptable ∧
    network_create (NetworkState.mk Option.none)
        = Except.error PyErr.noneNotSubscriptable ∧
    network_connect (NetworkState.mk Option.none)
        = Except.error PyErr.noneNotSubscriptable :=
  stim_dict_required (NetworkState.mk Option.none) rfl

end Potjans
